import Mathlib

/-!
Verification of the maintenance scheduling engine of the `tams` web
application.  The TypeScript sources are embedded shallowly: JavaScript
numbers appearing in the scheduling arithmetic are modelled as rationals
(`ℚ`), action-plan durations as natural numbers of days, window capacities
as integers of days, record fields that may be `null`/`undefined` as
`Option`, and the criticality-level union type as the corresponding
strings.  UI copy (toast texts, French descriptions) is elided; the
structure, predicates and counts of every computation are kept.
-/

namespace Tams

/-- An anomaly record, as used by the scheduling logic: identifier, status
(`new`/`in_progress`/`treated`/`closed`), stored criticality level
(`low`/`normal`/`high`/`critical`), optional equipment reference, optional
maintenance-window assignment, and the three pairs of criticality
sub-scores (user-entered value overriding the base value). -/
structure Anomaly where
  id : Nat
  status : String := "treated"
  criticalityLevel : String := "normal"
  equipmentId : Option String := none
  maintenanceWindowId : Option Nat := none
  userFiabiliteIntegriteScore : Option Int := none
  fiabiliteIntegriteScore : Option Int := none
  userDisponibiliteScore : Option Int := none
  disponibiliteScore : Option Int := none
  userProcessSafetyScore : Option Int := none
  processSafetyScore : Option Int := none
deriving DecidableEq

/-- An action plan: belongs to one anomaly and carries the aggregate
remediation duration in days. -/
structure ActionPlan where
  anomalyId : Nat
  totalDurationDays : Nat
deriving DecidableEq

/-- A maintenance window: identifier, type, capacity in days, status and
the auto-created flag.  `durationDays` is an integer so that the
degenerate zero/negative-capacity guard of the analyzer is faithfully
representable. -/
structure MaintenanceWindow where
  id : Nat
  wtype : String := "minor"
  durationDays : Int
  status : String := "planned"
  autoCreated : Bool := false
deriving DecidableEq

/-! ## Criticality level (`AnomalyTable.tsx`, `calculateCriticalityLevel`)

The source resolves each sub-score as
`anomaly.userX ?? anomaly.X ?? 0` (JavaScript nullish coalescing) and
classifies the sum. -/

/-- Resolution `user ?? base ?? 0`: the user-entered score wins whenever it is
non-null (even when it is `0`), otherwise the base score, otherwise `0`. -/
def resolveScore (user base : Option Int) : Int :=
  match user with
  | some u => u
  | none =>
    match base with
    | some b => b
    | none => 0

/-- Sum of the three resolved sub-scores of an anomaly. -/
def criticalityTotalScore (a : Anomaly) : Int :=
  resolveScore a.userFiabiliteIntegriteScore a.fiabiliteIntegriteScore +
    resolveScore a.userDisponibiliteScore a.disponibiliteScore +
    resolveScore a.userProcessSafetyScore a.processSafetyScore

/-- Function `calculateCriticalityLevel` from `AnomalyTable.tsx` (identical copy in
the dashboard): total `≥ 9` is critical, `≥ 7` high, `≥ 3` normal,
otherwise low. -/
def calculateCriticalityLevel (a : Anomaly) : String :=
  let totalScore := criticalityTotalScore a
  if totalScore ≥ 9 then "critical"
  else if totalScore ≥ 7 then "high"
  else if totalScore ≥ 3 then "normal"
  else "low"

/-! ## Scoring model (`PlanningNew`, `calculateOptimalScheduling`)

`const criticalityWeight = {'critical': 10, 'high': 7, 'medium': 4,
'low': 1}[anomaly.criticalityLevel] || 1` — note the record is keyed by
`'medium'` although the data model produces `'normal'`. -/

/-- The criticality-weight lookup with its `|| 1` fall-through default,
exactly as keyed in the source (`medium`, not `normal`). -/
def criticalityWeight (level : String) : ℚ :=
  if level = "critical" then 10
  else if level = "high" then 7
  else if level = "medium" then 4
  else if level = "low" then 1
  else 1

/-- Factor `anomaly.equipmentId ? 1.2 : 1.0`. -/
def equipmentFactor (a : Anomaly) : ℚ :=
  if a.equipmentId.isSome then 6 / 5 else 1

/-- Score `urgencyScore = criticalityWeight * equipmentFactor`. -/
def urgencyScore (a : Anomaly) : ℚ :=
  criticalityWeight a.criticalityLevel * equipmentFactor a

/-- Lookup `actionPlans.find(ap => ap.anomalyId === anomaly.id)`. -/
def findActionPlan (plans : List ActionPlan) (anomalyId : Nat) : Option ActionPlan :=
  plans.find? (fun p => p.anomalyId == anomalyId)

/-- Duration `actionPlan?.totalDurationDays || 1`: the JavaScript `||` falls back to
`1` both when no plan exists and when the plan's total duration is the
falsy value `0`. -/
def planProcessingTime (plan : Option ActionPlan) : ℚ :=
  match plan with
  | some p => if p.totalDurationDays = 0 then 1 else (p.totalDurationDays : ℚ)
  | none => 1

/-- One entry of `treatedAnomaliesData`: the anomaly together with its
urgency score, processing time and efficiency ratio. -/
structure ScoredAnomaly where
  anomaly : Anomaly
  urgencyScore : ℚ
  processingTime : ℚ
  efficiency : ℚ
deriving DecidableEq

/-- The per-anomaly part of `calculateOptimalScheduling`. -/
def scoreAnomaly (plans : List ActionPlan) (a : Anomaly) : ScoredAnomaly :=
  let u := urgencyScore a
  let p := planProcessingTime (findActionPlan plans a.id)
  { anomaly := a, urgencyScore := u, processingTime := p, efficiency := u / p }

/-! ## Window utilization analyzer (`calculateOptimalScheduling`) -/

/-- One entry of `windowAnalysis`. -/
structure WindowAnalysis where
  window : MaintenanceWindow
  assignedAnomalies : List Anomaly
  totalWorkload : ℚ
  capacity : Int
  utilization : ℚ
  balanceScore : ℚ
  efficiencyScore : ℚ
  overallScore : ℚ
deriving DecidableEq

/-- The per-window part of `calculateOptimalScheduling`: assigned
anomalies, workload, utilization with the `capacity > 0` guard, the
criticality-diversity bonus and the triangular efficiency score targeting
85% utilization. -/
def analyzeWindow (treatedAnomalies : List Anomaly) (plans : List ActionPlan)
    (w : MaintenanceWindow) : WindowAnalysis :=
  let assigned := treatedAnomalies.filter (fun a => a.maintenanceWindowId == some w.id)
  let totalWorkload :=
    (assigned.map (fun a => planProcessingTime (findActionPlan plans a.id))).sum
  let capacity := w.durationDays
  let utilization : ℚ :=
    if 0 < capacity then totalWorkload / (capacity : ℚ) * 100 else 0
  let balanceScore : ℚ := ((assigned.map (·.criticalityLevel)).dedup.length : ℚ) * 10
  let efficiencyScore : ℚ := max 0 (100 - |85 - utilization|)
  { window := w
    assignedAnomalies := assigned
    totalWorkload := totalWorkload
    capacity := capacity
    utilization := utilization
    balanceScore := balanceScore
    efficiencyScore := efficiencyScore
    overallScore := (balanceScore + efficiencyScore) / 2 }

/-! ## Recommendation generator (`generateRecommendations`)

The French UI copy of `description`/`action` is elided; each
recommendation keeps its severity (`type` in the source), its title and
the count named in its description. -/

/-- A recommendation with its severity, title and the count its
description reports. -/
structure Recommendation where
  rtype : String
  title : String
  count : Nat
deriving DecidableEq

/-- Generator `generateRecommendations(anomalies, windows)`: a warning for
overloaded windows (`utilization > 100`), an info for underutilized ones
(`0 < utilization < 50`), an error for unscheduled critical anomalies. -/
def generateRecommendations (anomalies : List ScoredAnomaly)
    (windows : List WindowAnalysis) : List Recommendation :=
  let overloadedWindows := windows.filter (fun w => decide (100 < w.utilization))
  let r1 : List Recommendation :=
    if 0 < overloadedWindows.length then
      [{ rtype := "warning", title := "Fenêtres Surchargées",
         count := overloadedWindows.length }]
    else []
  let underutilizedWindows :=
    windows.filter (fun w => decide (w.utilization < 50) && decide (0 < w.utilization))
  let r2 : List Recommendation :=
    if 0 < underutilizedWindows.length then
      [{ rtype := "info", title := "Capacité Disponible",
         count := underutilizedWindows.length }]
    else []
  let unscheduledCritical := anomalies.filter
    (fun a => a.anomaly.maintenanceWindowId == none &&
      a.anomaly.criticalityLevel == "critical")
  let r3 : List Recommendation :=
    if 0 < unscheduledCritical.length then
      [{ rtype := "error", title := "Anomalies Critiques Non Programmées",
         count := unscheduledCritical.length }]
    else []
  r1 ++ r2 ++ r3

/-- Result record of `calculateOptimalScheduling`. -/
structure SchedulingResult where
  sortedAnomalies : List ScoredAnomaly
  windowAnalysis : List WindowAnalysis
  recommendations : List Recommendation
deriving DecidableEq

/-- Pipeline `calculateOptimalScheduling`: score every treated anomaly, sort by
descending efficiency (JavaScript `Array.prototype.sort` is stable, so the
embedding uses the stable `mergeSort`), analyze every window and generate
recommendations. -/
def calculateOptimalScheduling (treatedAnomalies : List Anomaly)
    (maintenanceWindows : List MaintenanceWindow)
    (plans : List ActionPlan) : SchedulingResult :=
  let treatedAnomaliesData := treatedAnomalies.map (scoreAnomaly plans)
  let sortedAnomalies :=
    treatedAnomaliesData.mergeSort (fun a b => decide (b.efficiency ≤ a.efficiency))
  let windowAnalysis := maintenanceWindows.map (analyzeWindow treatedAnomalies plans)
  { sortedAnomalies := sortedAnomalies
    windowAnalysis := windowAnalysis
    recommendations := generateRecommendations sortedAnomalies windowAnalysis }

/-! ## Auto-schedule handler (`PlanningNew`, `handleAutoSchedule`)

The backend planning engine returns `{assignments, unassigned}`.  The
handler applies only those assignments whose target window already exists
in `availableWindows`; assignments to any other window are discarded and
their (distinct) anomalies are added to the unassigned count.  The handler
never touches the window store. -/

/-- One `{anomalyId, windowId}` pair of the engine's result. -/
structure Assignment where
  anomalyId : Nat
  windowId : Nat
deriving DecidableEq

/-- The engine's `{assignments, unassigned}` result. -/
structure ScheduleResults where
  assignments : List Assignment
  unassigned : List Nat
deriving DecidableEq

/-- The slice of the data context the handler reads and writes. -/
structure AppState where
  anomalies : List Anomaly
  maintenanceWindows : List MaintenanceWindow
deriving DecidableEq

/-- Mutation `updateAnomaly` of an anomaly record's window assignment. -/
def updateAnomalyWindow (anomalies : List Anomaly) (anomalyId : Nat)
    (windowId : Option Nat) : List Anomaly :=
  anomalies.map (fun a =>
    if a.id = anomalyId then { a with maintenanceWindowId := windowId } else a)

/-- Handler `handleAutoSchedule`, given the engine's result: apply the assignments
whose window is in `availableWindows`, leave the window store untouched,
and report `unassigned.length` plus the distinct anomalies whose
assignment targeted a window that does not pre-exist. -/
def handleAutoSchedule (st : AppState) (availableWindows : List MaintenanceWindow)
    (results : ScheduleResults) : AppState × Nat :=
  let existingWindowIds := availableWindows.map (·.id)
  let validAssignments :=
    results.assignments.filter (fun g => g.windowId ∈ existingWindowIds)
  let anomalies' := validAssignments.foldl
    (fun acc g => updateAnomalyWindow acc g.anomalyId (some g.windowId))
    st.anomalies
  let assignmentsToNewWindows :=
    results.assignments.filter (fun g => g.windowId ∉ existingWindowIds)
  let anomaliesForNewWindows := (assignmentsToNewWindows.map (·.anomalyId)).dedup
  let unassignedCount := results.unassigned.length + anomaliesForNewWindows.length
  ({ anomalies := anomalies', maintenanceWindows := st.maintenanceWindows },
   unassignedCount)

/-! ## Scheduling optimizer

Modelled from the spec: the backend optimizer (`optimizeScheduling` of
`usePlanningEngineReal`) is not among the provided sources — only its
caller is.  Following §4.5, a reassignment step relocates the
lowest-efficiency anomaly of an overloaded window (`utilization > 100`)
to the highest-scoring underutilized window (`0 < utilization < 50`) with
sufficient remaining capacity, repeating until no overloaded window can be
relieved or no target remains.  Window scores are those of the
source-embedded analyzer above. -/

/-- One `{anomalyId, fromWindowId, toWindowId}` reassignment. -/
structure Reassignment where
  anomalyId : Nat
  fromWindowId : Nat
  toWindowId : Nat
deriving DecidableEq

/-- Lowest-efficiency element of a list of scored anomalies (first one on
ties). -/
def minByEfficiency : List ScoredAnomaly → Option ScoredAnomaly
  | [] => none
  | x :: xs =>
    some (xs.foldl (fun best y =>
      if y.efficiency < best.efficiency then y else best) x)

/-- Highest-`overallScore` element of a list of window analyses (first one
on ties). -/
def maxByOverall : List WindowAnalysis → Option WindowAnalysis
  | [] => none
  | x :: xs =>
    some (xs.foldl (fun best y =>
      if best.overallScore < y.overallScore then y else best) x)

/-- Modelled from the spec: pick the next move of §4.5 — an overloaded
source window, its lowest-efficiency assigned anomaly, and the
highest-scoring underutilized target window whose remaining capacity
accommodates that anomaly's processing time. -/
def pickMove (treatedAnomalies : List Anomaly) (plans : List ActionPlan)
    (windows : List MaintenanceWindow) :
    Option (WindowAnalysis × ScoredAnomaly × WindowAnalysis) :=
  let analyses := windows.map (analyzeWindow treatedAnomalies plans)
  (analyses.find? (fun w => decide (100 < w.utilization))).bind fun src =>
    (minByEfficiency (src.assignedAnomalies.map (scoreAnomaly plans))).bind fun sa =>
      (maxByOverall (analyses.filter (fun w =>
          decide (0 < w.utilization) && decide (w.utilization < 50) &&
            decide (w.totalWorkload + sa.processingTime ≤ (w.window.durationDays : ℚ)) &&
            decide (w.window.id ≠ src.window.id)))).map fun tgt =>
        (src, sa, tgt)

/-- Modelled from the spec: one optimizer step as a returned reassignment. -/
def optimizeStep (treatedAnomalies : List Anomaly) (plans : List ActionPlan)
    (windows : List MaintenanceWindow) : Option Reassignment :=
  (pickMove treatedAnomalies plans windows).map fun m =>
    { anomalyId := m.2.1.anomaly.id, fromWindowId := m.1.window.id,
      toWindowId := m.2.2.window.id }

/-- Apply one reassignment to the anomaly list. -/
def applyReassignment (anomalies : List Anomaly) (r : Reassignment) : List Anomaly :=
  updateAnomalyWindow anomalies r.anomalyId (some r.toWindowId)

/-- Apply a list of reassignments in order. -/
def applyReassignments (anomalies : List Anomaly) (rs : List Reassignment) : List Anomaly :=
  rs.foldl applyReassignment anomalies

/-- Modelled from the spec: iterate the reassignment step (fuel-bounded). -/
def optimizeLoop : Nat → List Anomaly → List ActionPlan → List MaintenanceWindow →
    List Reassignment
  | 0, _, _, _ => []
  | fuel + 1, treatedAnomalies, plans, windows =>
    match optimizeStep treatedAnomalies plans windows with
    | none => []
    | some r =>
      r :: optimizeLoop fuel (applyReassignment treatedAnomalies r) plans windows

/-- Modelled from the spec: `optimize(treatedAnomalies, maintenanceWindows,
actionPlans)` returning the list of reassignments it applies.  Each step
moves one anomaly out of an overloaded window, so the number of treated
anomalies bounds the iteration. -/
def optimize (treatedAnomalies : List Anomaly) (plans : List ActionPlan)
    (windows : List MaintenanceWindow) : List Reassignment :=
  optimizeLoop treatedAnomalies.length treatedAnomalies plans windows

/-! ## Concrete fixtures -/

/-- Fixture: critical anomaly assigned to window 1. -/
def a9a : Anomaly := { id := 1, criticalityLevel := "critical", maintenanceWindowId := some 1 }

/-- Fixture: low anomaly assigned to window 1. -/
def a9b : Anomaly := { id := 2, criticalityLevel := "low", maintenanceWindowId := some 1 }

/-- Fixture: normal anomaly assigned to window 2. -/
def a9c : Anomaly := { id := 3, criticalityLevel := "normal", maintenanceWindowId := some 2 }

/-- Fixture: window 1, capacity 10 days. -/
def w9a : MaintenanceWindow := { id := 1, durationDays := 10 }

/-- Fixture: window 2, capacity 100 days. -/
def w9b : MaintenanceWindow := { id := 2, durationDays := 100 }

/-- Fixture: the three treated anomalies. -/
def T9 : List Anomaly := [a9a, a9b, a9c]

/-- Fixture: action plans of 5, 6 and 10 days. -/
def P9 : List ActionPlan := [⟨1, 5⟩, ⟨2, 6⟩, ⟨3, 10⟩]

/-- Fixture: the two windows. -/
def W9 : List MaintenanceWindow := [w9a, w9b]

/-! ## Shared helper lemmas -/

/-- The processing time of an anomaly is always at least one day. -/
lemma one_le_planProcessingTime (plan : Option ActionPlan) :
    1 ≤ planProcessingTime plan := by
  rcases plan with _ | p
  · simp [planProcessingTime]
  · simp only [planProcessingTime]
    split_ifs with h
    · exact le_refl 1
    · exact_mod_cast Nat.one_le_iff_ne_zero.mpr h

/-! ## Claims -/

/-- C3: `calculateCriticalityLevel` sums the three resolved sub-scores and
classifies with exact boundaries at 9, 7 and 3: total `≥ 9` is critical,
`7 ≤ total < 9` is high, `3 ≤ total < 7` is normal, `total < 3` is low. -/
theorem calculateCriticalityLevel_boundaries (a : Anomaly) :
    (9 ≤ criticalityTotalScore a → calculateCriticalityLevel a = "critical") ∧
    (7 ≤ criticalityTotalScore a → criticalityTotalScore a < 9 →
      calculateCriticalityLevel a = "high") ∧
    (3 ≤ criticalityTotalScore a → criticalityTotalScore a < 7 →
      calculateCriticalityLevel a = "normal") ∧
    (criticalityTotalScore a < 3 → calculateCriticalityLevel a = "low") := by
  refine ⟨fun h1 => ?_, fun h1 h2 => ?_, fun h1 h2 => ?_, fun h1 => ?_⟩ <;>
    · simp only [calculateCriticalityLevel]
      split_ifs <;> first | rfl | omega

/-- C3 witness: an anomaly with sub-scores 4, 3, 2 (total 9) is critical. -/
theorem calculateCriticalityLevel_boundaries_witness :
    calculateCriticalityLevel
      { id := 0, userFiabiliteIntegriteScore := some 4,
        userDisponibiliteScore := some 3, userProcessSafetyScore := some 2 }
      = "critical" :=
  (calculateCriticalityLevel_boundaries _).1 (by decide)

/-- C10: every sub-score resolves as `user ?? base ?? 0` — the user value
wins whenever present, even when it is `0` (then overriding a positive
base score); the base value is used when the user value is null; `0` is
used only when both are null.  Consequently an anomaly whose user scores
are all `0` is classified low even when its base scores sum to 15. -/
theorem subscore_resolution (user base : Option Int) :
    (∀ u, user = some u → resolveScore user base = u) ∧
    (∀ b, user = none → base = some b → resolveScore user base = b) ∧
    (user = none → base = none → resolveScore user base = 0) ∧
    calculateCriticalityLevel
      { id := 0, userFiabiliteIntegriteScore := some 0,
        fiabiliteIntegriteScore := some 5,
        userDisponibiliteScore := some 0, disponibiliteScore := some 5,
        userProcessSafetyScore := some 0, processSafetyScore := some 5 }
      = "low" := by
  refine ⟨fun u hu => ?_, fun b hu hb => ?_, fun hu hb => ?_, by decide⟩ <;>
    subst_vars <;> rfl

/-- C10 witness: the user score 0 overrides the base score 5. -/
theorem subscore_resolution_witness :
    resolveScore (some 0) (some 5) = 0 :=
  (subscore_resolution (some 0) (some 5)).1 0 rfl

/-- C2 (divergence): the source's weight record is keyed by `medium`
although `calculateCriticalityLevel` produces `normal`, so an anomaly of
level `normal` (reachable, e.g. with total sub-score 5) falls through to
the `|| 1` default and gets urgency weight 1, not the 4 the specification
assigns to `medium/normal`; the other weights and the equipment factor
behave as specified. -/
theorem criticalityWeight_normal_divergence :
    calculateCriticalityLevel
      { id := 0, userFiabiliteIntegriteScore := some 2,
        userDisponibiliteScore := some 2, userProcessSafetyScore := some 1 }
      = "normal" ∧
    urgencyScore { id := 0, criticalityLevel := "normal" } = 1 ∧
    urgencyScore { id := 0, criticalityLevel := "critical" } = 10 ∧
    urgencyScore { id := 0, criticalityLevel := "high" } = 7 ∧
    urgencyScore { id := 0, criticalityLevel := "low" } = 1 ∧
    urgencyScore { id := 0, criticalityLevel := "unheard-of" } = 1 ∧
    urgencyScore { id := 0, criticalityLevel := "normal", equipmentId := some "P-101" }
      = 6 / 5 := by
  refine ⟨by decide, ?_, ?_, ?_, ?_, ?_, ?_⟩ <;> with_unfolding_all rfl

/-- C4 counterexample: for an existing action plan with
`totalDurationDays = 0` the processing time is 1, not the plan's
`totalDurationDays` — the JavaScript `|| 1` also replaces the falsy 0. -/
theorem processingTime_zero_plan_counterexample :
    findActionPlan [⟨1, 0⟩] (1 : Nat) = some ⟨1, 0⟩ ∧
    (scoreAnomaly [⟨1, 0⟩] { id := 1 }).processingTime = 1 ∧
    (scoreAnomaly [⟨1, 0⟩] { id := 1 }).processingTime ≠
      ((0 : Nat) : ℚ) := by
  refine ⟨by with_unfolding_all rfl, by with_unfolding_all rfl, ?_⟩
  with_unfolding_all decide

/-- C4 (amended): `efficiency = urgencyScore / processingTime`;
`processingTime` equals the plan's `totalDurationDays` when a plan exists
with non-zero duration, and 1 when the plan is absent or its duration is
the falsy 0; hence `processingTime ≥ 1` and is never zero. -/
theorem scoring_processing_defaults (plans : List ActionPlan) (a : Anomaly) :
    (scoreAnomaly plans a).efficiency =
      (scoreAnomaly plans a).urgencyScore / (scoreAnomaly plans a).processingTime ∧
    1 ≤ (scoreAnomaly plans a).processingTime ∧
    (scoreAnomaly plans a).processingTime ≠ 0 ∧
    (∀ p, findActionPlan plans a.id = some p → p.totalDurationDays ≠ 0 →
      (scoreAnomaly plans a).processingTime = (p.totalDurationDays : ℚ)) ∧
    (findActionPlan plans a.id = none → (scoreAnomaly plans a).processingTime = 1) ∧
    (∀ p, findActionPlan plans a.id = some p → p.totalDurationDays = 0 →
      (scoreAnomaly plans a).processingTime = 1) := by
  have h1 : 1 ≤ (scoreAnomaly plans a).processingTime :=
    one_le_planProcessingTime _
  refine ⟨rfl, h1, by intro h0; rw [h0] at h1; norm_num at h1,
    fun p hp hnz => ?_, fun hp => ?_, fun p hp hz => ?_⟩ <;>
    simp only [scoreAnomaly, planProcessingTime, hp]
  · rw [if_neg hnz]
  · rw [if_pos hz]

/-- C4 witness: a 4-day plan gives processing time 4 and efficiency
urgency/4. -/
theorem scoring_processing_defaults_witness :
    (scoreAnomaly [⟨1, 4⟩] { id := 1 }).processingTime = ((4 : Nat) : ℚ) :=
  (scoring_processing_defaults [⟨1, 4⟩] { id := 1 }).2.2.2.1 ⟨1, 4⟩
    (by with_unfolding_all rfl) (by decide)

/-- C5: window utilization is `totalWorkload / durationDays * 100` when
the capacity is positive and 0 when the capacity is zero or negative, so
the analyzer never divides by zero. -/
theorem utilization_division_guard (treated : List Anomaly)
    (plans : List ActionPlan) (w : MaintenanceWindow) :
    (0 < w.durationDays →
      (analyzeWindow treated plans w).utilization =
        (analyzeWindow treated plans w).totalWorkload / (w.durationDays : ℚ) * 100) ∧
    (w.durationDays ≤ 0 → (analyzeWindow treated plans w).utilization = 0) := by
  constructor <;> intro h <;> simp only [analyzeWindow]
  · rw [if_pos h]
  · rw [if_neg (not_lt.mpr h)]

/-- C5 witness: a window of zero duration yields utilization 0 even with
an assigned anomaly. -/
theorem utilization_division_guard_witness :
    (analyzeWindow [{ id := 1, maintenanceWindowId := some 7 }] []
      { id := 7, durationDays := 0 }).utilization = 0 :=
  (utilization_division_guard _ _ _).2 (by decide)

/-- C6: `balanceScore` is ten times the number of distinct criticality
levels among the window's assigned anomalies, `efficiencyScore` is the
triangular score `max 0 (100 - |85 - utilization|)` (hence never
negative), `overallScore` is their mean; at utilization 85 the efficiency
score is 100 and at 0 or 170 it is 15. -/
theorem window_scores_formulas (treated : List Anomaly)
    (plans : List ActionPlan) (w : MaintenanceWindow) :
    (analyzeWindow treated plans w).balanceScore =
      ((((analyzeWindow treated plans w).assignedAnomalies.map
          (·.criticalityLevel)).dedup.length : ℚ)) * 10 ∧
    (analyzeWindow treated plans w).efficiencyScore =
      max 0 (100 - |85 - (analyzeWindow treated plans w).utilization|) ∧
    0 ≤ (analyzeWindow treated plans w).efficiencyScore ∧
    (analyzeWindow treated plans w).overallScore =
      ((analyzeWindow treated plans w).balanceScore +
        (analyzeWindow treated plans w).efficiencyScore) / 2 ∧
    ((analyzeWindow treated plans w).utilization = 85 →
      (analyzeWindow treated plans w).efficiencyScore = 100) ∧
    ((analyzeWindow treated plans w).utilization = 0 →
      (analyzeWindow treated plans w).efficiencyScore = 15) ∧
    ((analyzeWindow treated plans w).utilization = 170 →
      (analyzeWindow treated plans w).efficiencyScore = 15) := by
  refine ⟨rfl, rfl, le_max_left _ _, rfl, fun h => ?_, fun h => ?_, fun h => ?_⟩ <;>
    · have : (analyzeWindow treated plans w).efficiencyScore =
          max 0 (100 - |85 - (analyzeWindow treated plans w).utilization|) := rfl
      rw [this, h]
      norm_num

/-- C6 witness: an empty window of positive capacity sits at utilization 0
and scores efficiency 15. -/
theorem window_scores_formulas_witness :
    (analyzeWindow [] [] { id := 1, durationDays := 5 }).efficiencyScore = 15 :=
  (window_scores_formulas [] [] { id := 1, durationDays := 5 }).2.2.2.2.2.1
    (by with_unfolding_all rfl)

/-- Membership in a conditional singleton list. -/
lemma mem_if_singleton {c : Prop} [Decidable c] {x r : Recommendation} :
    r ∈ (if c then [x] else ([] : List Recommendation)) ↔ c ∧ r = x := by
  split_ifs with h <;> simp [h]

/-- A positive filter length is exactly an existing member satisfying the
decidable predicate. -/
lemma length_filter_pos_iff {α : Type} {l : List α} {p : α → Prop}
    [DecidablePred p] :
    0 < (l.filter (fun a => decide (p a))).length ↔ ∃ a ∈ l, p a := by
  rw [List.length_pos_iff_exists_mem]
  constructor
  · rintro ⟨a, ha⟩
    rcases List.mem_filter.mp ha with ⟨hl, hp⟩
    exact ⟨a, hl, of_decide_eq_true hp⟩
  · rintro ⟨a, hl, hp⟩
    exact ⟨a, List.mem_filter.mpr ⟨hl, decide_eq_true hp⟩⟩

/-- C7: the generator emits a warning recommendation (whose description
names the count of overloaded windows) exactly when some window exceeds
100% utilization, an info recommendation exactly when some window has
utilization strictly between 0 and 50, and an error recommendation exactly
when some anomaly is critical and unassigned. -/
theorem recommendations_iff (anomalies : List ScoredAnomaly)
    (windows : List WindowAnalysis) :
    ((∃ r ∈ generateRecommendations anomalies windows, r.rtype = "warning") ↔
      ∃ w ∈ windows, 100 < w.utilization) ∧
    ((∃ r ∈ generateRecommendations anomalies windows, r.rtype = "info") ↔
      ∃ w ∈ windows, 0 < w.utilization ∧ w.utilization < 50) ∧
    ((∃ r ∈ generateRecommendations anomalies windows, r.rtype = "error") ↔
      ∃ a ∈ anomalies, a.anomaly.maintenanceWindowId = none ∧
        a.anomaly.criticalityLevel = "critical") ∧
    (∀ r ∈ generateRecommendations anomalies windows, r.rtype = "warning" →
      r.count = (windows.filter (fun w => decide (100 < w.utilization))).length) := by
  have hmem : ∀ r, r ∈ generateRecommendations anomalies windows ↔
      (0 < (windows.filter (fun w => decide (100 < w.utilization))).length ∧
        r = { rtype := "warning", title := "Fenêtres Surchargées",
              count := (windows.filter (fun w => decide (100 < w.utilization))).length }) ∨
      (0 < (windows.filter (fun w =>
          decide (w.utilization < 50) && decide (0 < w.utilization))).length ∧
        r = { rtype := "info", title := "Capacité Disponible",
              count := (windows.filter (fun w =>
                decide (w.utilization < 50) && decide (0 < w.utilization))).length }) ∨
      (0 < (anomalies.filter (fun a => a.anomaly.maintenanceWindowId == none &&
            a.anomaly.criticalityLevel == "critical")).length ∧
        r = { rtype := "error", title := "Anomalies Critiques Non Programmées",
              count := (anomalies.filter (fun a =>
                a.anomaly.maintenanceWindowId == none &&
                  a.anomaly.criticalityLevel == "critical")).length }) := by
    intro r
    simp only [generateRecommendations, List.mem_append, mem_if_singleton]
    exact or_assoc
  refine ⟨?_, ?_, ?_, ?_⟩
  · constructor
    · rintro ⟨r, hr, hty⟩
      rcases (hmem r).mp hr with ⟨hc, rfl⟩ | ⟨hc, rfl⟩ | ⟨hc, rfl⟩
      · exact length_filter_pos_iff.mp hc
      · exact absurd hty (show ("info" : String) ≠ "warning" by decide)
      · exact absurd hty (show ("error" : String) ≠ "warning" by decide)
    · intro hex
      exact ⟨_, (hmem _).mpr (Or.inl ⟨length_filter_pos_iff.mpr hex, rfl⟩), rfl⟩
  · have hiff : ∀ w : WindowAnalysis,
        (decide (w.utilization < 50) && decide (0 < w.utilization)) = true ↔
          0 < w.utilization ∧ w.utilization < 50 := by
      intro w
      simp only [Bool.and_eq_true, decide_eq_true_eq]
      exact and_comm
    constructor
    · rintro ⟨r, hr, hty⟩
      rcases (hmem r).mp hr with ⟨hc, rfl⟩ | ⟨hc, rfl⟩ | ⟨hc, rfl⟩
      · exact absurd hty (show ("warning" : String) ≠ "info" by decide)
      · rcases List.length_pos_iff_exists_mem.mp hc with ⟨w, hw⟩
        rcases List.mem_filter.mp hw with ⟨hl, hp⟩
        exact ⟨w, hl, (hiff w).mp hp⟩
      · exact absurd hty (show ("error" : String) ≠ "info" by decide)
    · rintro ⟨w, hl, hp⟩
      refine ⟨_, (hmem _).mpr (Or.inr (Or.inl ⟨?_, rfl⟩)), rfl⟩
      exact List.length_pos_iff_exists_mem.mpr
        ⟨w, List.mem_filter.mpr ⟨hl, (hiff w).mpr hp⟩⟩
  · have hiff : ∀ a : ScoredAnomaly,
        (a.anomaly.maintenanceWindowId == none &&
            a.anomaly.criticalityLevel == "critical") = true ↔
          a.anomaly.maintenanceWindowId = none ∧
            a.anomaly.criticalityLevel = "critical" := by
      intro a
      simp only [Bool.and_eq_true, beq_iff_eq]
    constructor
    · rintro ⟨r, hr, hty⟩
      rcases (hmem r).mp hr with ⟨hc, rfl⟩ | ⟨hc, rfl⟩ | ⟨hc, rfl⟩
      · exact absurd hty (show ("warning" : String) ≠ "error" by decide)
      · exact absurd hty (show ("info" : String) ≠ "error" by decide)
      · rcases List.length_pos_iff_exists_mem.mp hc with ⟨a, ha⟩
        rcases List.mem_filter.mp ha with ⟨hl, hp⟩
        exact ⟨a, hl, (hiff a).mp hp⟩
    · rintro ⟨a, hl, hp⟩
      refine ⟨_, (hmem _).mpr (Or.inr (Or.inr ⟨?_, rfl⟩)), rfl⟩
      exact List.length_pos_iff_exists_mem.mpr
        ⟨a, List.mem_filter.mpr ⟨hl, (hiff a).mpr hp⟩⟩
  · intro r hr hty
    rcases (hmem r).mp hr with ⟨hc, rfl⟩ | ⟨hc, rfl⟩ | ⟨hc, rfl⟩
    · rfl
    · exact absurd hty (show ("info" : String) ≠ "warning" by decide)
    · exact absurd hty (show ("error" : String) ≠ "warning" by decide)

/-- C7 witness: on the fixture data the overloaded window 1 produces a
warning recommendation counting one overloaded window. -/
theorem recommendations_iff_witness :
    ∃ r ∈ generateRecommendations (T9.map (scoreAnomaly P9))
      (W9.map (analyzeWindow T9 P9)), r.rtype = "warning" :=
  (recommendations_iff (T9.map (scoreAnomaly P9))
      (W9.map (analyzeWindow T9 P9))).1.mpr
    ⟨analyzeWindow T9 P9 w9a, by with_unfolding_all decide,
      by with_unfolding_all decide⟩

/-- The descending-efficiency comparison is transitive. -/
lemma effLE_trans (a b c : ScoredAnomaly) :
    decide (b.efficiency ≤ a.efficiency) →
    decide (c.efficiency ≤ b.efficiency) →
    decide (c.efficiency ≤ a.efficiency) := by
  intro hab hbc
  exact decide_eq_true (le_trans (of_decide_eq_true hbc) (of_decide_eq_true hab))

/-- The descending-efficiency comparison is total. -/
lemma effLE_total (a b : ScoredAnomaly) :
    decide (b.efficiency ≤ a.efficiency) || decide (a.efficiency ≤ b.efficiency) := by
  simp only [Bool.or_eq_true, decide_eq_true_eq]
  exact le_total b.efficiency a.efficiency

/-- C8: the prioritization is deterministic — identical inputs yield the
identical sorted anomaly list — and the list is sorted by non-increasing
efficiency while, for every efficiency value, the anomalies carrying that
value appear in the same order as in the input (stability). -/
theorem schedule_sort_deterministic_stable
    (t t' : List Anomaly) (w w' : List MaintenanceWindow)
    (p p' : List ActionPlan) (ht : t = t') (hw : w = w') (hp : p = p') :
    (calculateOptimalScheduling t w p).sortedAnomalies =
      (calculateOptimalScheduling t' w' p').sortedAnomalies ∧
    (calculateOptimalScheduling t w p).sortedAnomalies.Pairwise
      (fun x y => y.efficiency ≤ x.efficiency) ∧
    ∀ q : ℚ, (calculateOptimalScheduling t w p).sortedAnomalies.filter
        (fun s => decide (s.efficiency = q)) =
      (t.map (scoreAnomaly p)).filter (fun s => decide (s.efficiency = q)) := by
  subst ht hw hp
  refine ⟨rfl, ?_, ?_⟩
  · have h := List.sorted_mergeSort
      effLE_trans effLE_total (t.map (scoreAnomaly p))
    exact h.imp fun hxy => of_decide_eq_true hxy
  · intro q
    set le := fun x y : ScoredAnomaly => decide (y.efficiency ≤ x.efficiency) with hle
    set pq := fun s : ScoredAnomaly => decide (s.efficiency = q) with hpq
    set L := t.map (scoreAnomaly p) with hL
    have hFpair : (L.filter pq).Pairwise fun x y => le x y = true := by
      apply List.pairwise_of_forall_mem_list
      intro x hx y hy
      have hxq : x.efficiency = q :=
        of_decide_eq_true (List.mem_filter.mp hx).2
      have hyq : y.efficiency = q :=
        of_decide_eq_true (List.mem_filter.mp hy).2
      exact decide_eq_true (le_of_eq (hyq.trans hxq.symm))
    have hsub : List.Sublist (L.filter pq) (L.mergeSort le) :=
      List.sublist_mergeSort effLE_trans effLE_total hFpair (List.filter_sublist L)
    have hsub2 : List.Sublist ((L.filter pq).filter pq) ((L.mergeSort le).filter pq) :=
      hsub.filter pq
    rw [List.filter_filter] at hsub2
    have hsame : (L.filter fun a => pq a && pq a) = L.filter pq := by
      apply List.filter_congr
      intro a _
      cases pq a <;> rfl
    rw [hsame] at hsub2
    have hperm : List.Perm ((L.mergeSort le).filter pq) (L.filter pq) :=
      (List.mergeSort_perm L le).filter pq
    exact ((hsub2.eq_of_length hperm.length_eq.symm).symm : _)

/-- C8 witness: on the fixture data the anomalies of efficiency 2 appear
identically in the sorted output and the scored input. -/
theorem schedule_sort_deterministic_stable_witness :
    (calculateOptimalScheduling T9 W9 P9).sortedAnomalies.filter
        (fun s => decide (s.efficiency = 2)) =
      (T9.map (scoreAnomaly P9)).filter (fun s => decide (s.efficiency = 2)) :=
  (schedule_sort_deterministic_stable T9 T9 W9 W9 P9 P9 rfl rfl rfl).2.2 2

/-- Folding window-assignment updates whose target windows all satisfy a
predicate preserves the invariant that every anomaly's assignment is
either an original one or one of those targets. -/
lemma foldl_updateAnomalyWindow_inv (Q : Option Nat → Prop) :
    ∀ (gs : List Assignment) (acc : List Anomaly),
      (∀ g ∈ gs, Q (some g.windowId)) →
      (∀ a ∈ acc, Q a.maintenanceWindowId) →
      ∀ a ∈ gs.foldl
        (fun acc g => updateAnomalyWindow acc g.anomalyId (some g.windowId)) acc,
        Q a.maintenanceWindowId := by
  intro gs
  induction gs with
  | nil =>
    intro acc _ hacc
    simpa using hacc
  | cons g gs ih =>
    intro acc hgs hacc
    simp only [List.foldl_cons]
    refine ih _ (fun g' hg' => hgs g' (List.mem_cons_of_mem _ hg')) ?_
    intro a ha
    rcases List.mem_map.mp ha with ⟨b, hb, rfl⟩
    by_cases hid : b.id = g.anomalyId
    · rw [if_pos hid]
      exact hgs g (List.mem_cons_self _ _)
    · rw [if_neg hid]
      exact hacc b hb

/-- C1: for any engine result, the auto-schedule handler leaves the
maintenance-window list untouched; every assignment targeting a window
that does not pre-exist is counted among the unassigned anomalies (the
engine's unassigned list plus the distinct anomalies aimed at new
windows); and every anomaly assignment the handler writes targets a
pre-existing available window. -/
theorem handleAutoSchedule_frame (st : AppState)
    (availableWindows : List MaintenanceWindow) (results : ScheduleResults) :
    (handleAutoSchedule st availableWindows results).1.maintenanceWindows =
      st.maintenanceWindows ∧
    (handleAutoSchedule st availableWindows results).2 =
      results.unassigned.length +
        ((results.assignments.filter
          (fun g => g.windowId ∉ availableWindows.map (·.id))).map
            (·.anomalyId)).dedup.length ∧
    (∀ g ∈ results.assignments, g.windowId ∉ availableWindows.map (·.id) →
      g.anomalyId ∈ ((results.assignments.filter
        (fun g => g.windowId ∉ availableWindows.map (·.id))).map
          (·.anomalyId)).dedup) ∧
    (∀ a ∈ (handleAutoSchedule st availableWindows results).1.anomalies,
      (∃ a0 ∈ st.anomalies, a0.maintenanceWindowId = a.maintenanceWindowId) ∨
      ∃ wid ∈ availableWindows.map (·.id), a.maintenanceWindowId = some wid) := by
  refine ⟨rfl, rfl, fun g hg hnot => ?_, ?_⟩
  · exact List.mem_dedup.mpr (List.mem_map.mpr
      ⟨g, List.mem_filter.mpr ⟨hg, decide_eq_true hnot⟩, rfl⟩)
  · intro a ha
    simp only [handleAutoSchedule] at ha
    refine foldl_updateAnomalyWindow_inv
      (fun o => (∃ a0 ∈ st.anomalies, a0.maintenanceWindowId = o) ∨
        ∃ wid ∈ availableWindows.map (·.id), o = some wid)
      _ st.anomalies ?_ ?_ a ha
    · intro g' hg'
      exact Or.inr ⟨g'.windowId,
        of_decide_eq_true (List.mem_filter.mp hg').2, rfl⟩
    · intro a0 ha0
      exact Or.inl ⟨a0, ha0, rfl⟩

/-- C1 witness: an engine assignment to the non-existing window 5 leaves
the window list unchanged and is counted (together with engine-unassigned
anomaly 7) as two unassigned anomalies. -/
theorem handleAutoSchedule_frame_witness :
    (handleAutoSchedule { anomalies := T9, maintenanceWindows := W9 } W9
        { assignments := [⟨1, 5⟩], unassigned := [7] }).1.maintenanceWindows = W9 ∧
    (1 : Nat) ∈ ((([⟨1, 5⟩] : List Assignment).filter
      (fun g => g.windowId ∉ W9.map (·.id))).map (·.anomalyId)).dedup :=
  ⟨(handleAutoSchedule_frame { anomalies := T9, maintenanceWindows := W9 } W9
      { assignments := [⟨1, 5⟩], unassigned := [7] }).1,
   (handleAutoSchedule_frame { anomalies := T9, maintenanceWindows := W9 } W9
      { assignments := [⟨1, 5⟩], unassigned := [7] }).2.2.1 ⟨1, 5⟩
     (by decide) (by decide)⟩

/-- A fold that always keeps one of its two arguments lands on the seed or
in the list. -/
lemma foldl_choice_mem {α : Type} (g : α → α → α)
    (hg : ∀ a b, g a b = a ∨ g a b = b) :
    ∀ (xs : List α) (x : α), xs.foldl g x = x ∨ xs.foldl g x ∈ xs := by
  intro xs
  induction xs with
  | nil => intro x; exact Or.inl rfl
  | cons y ys ih =>
    intro x
    rw [List.foldl_cons]
    rcases ih (g x y) with h | h
    · rcases hg x y with h' | h'
      · exact Or.inl (h.trans h')
      · refine Or.inr ?_
        rw [h, h']
        exact List.mem_cons_self y ys
    · exact Or.inr (List.mem_cons_of_mem _ h)

/-- The minimum-efficiency pick is an element of its input list. -/
lemma minByEfficiency_mem (l : List ScoredAnomaly) (x : ScoredAnomaly)
    (h : minByEfficiency l = some x) : x ∈ l := by
  rcases l with _ | ⟨z, zs⟩
  · exact absurd h (by simp [minByEfficiency])
  · simp only [minByEfficiency, Option.some.injEq] at h
    have hfold := foldl_choice_mem
        (fun best y : ScoredAnomaly =>
          if y.efficiency < best.efficiency then y else best)
        (fun a b => by
          rcases lt_or_ge b.efficiency a.efficiency with hc | hc
          · exact Or.inr (if_pos hc)
          · exact Or.inl (if_neg (not_lt.mpr hc)))
        zs z
    rcases hfold with h' | h'
    · exact List.mem_cons.mpr (Or.inl (h.symm.trans h'))
    · subst h
      exact List.mem_cons.mpr (Or.inr h')

/-- The maximum-score pick is an element of its input list. -/
lemma maxByOverall_mem (l : List WindowAnalysis) (x : WindowAnalysis)
    (h : maxByOverall l = some x) : x ∈ l := by
  rcases l with _ | ⟨z, zs⟩
  · exact absurd h (by simp [maxByOverall])
  · simp only [maxByOverall, Option.some.injEq] at h
    have hfold := foldl_choice_mem
        (fun best y : WindowAnalysis =>
          if best.overallScore < y.overallScore then y else best)
        (fun a b => by
          rcases lt_or_ge a.overallScore b.overallScore with hc | hc
          · exact Or.inr (if_pos hc)
          · exact Or.inl (if_neg (not_lt.mpr hc)))
        zs z
    rcases hfold with h' | h'
    · exact List.mem_cons.mpr (Or.inl (h.symm.trans h'))
    · subst h
      exact List.mem_cons.mpr (Or.inr h')

/-- Reassigning an anomaly into window `wid` turns the window's assigned
list into the old one plus the (re-pointed) anomaly, up to permutation —
provided anomaly identifiers are unique and the anomaly was not already
assigned there. -/
lemma update_filter_perm (a0 : Anomaly) (wid : Nat) :
    ∀ l : List Anomaly, a0 ∈ l → (l.map (·.id)).Nodup →
      a0.maintenanceWindowId ≠ some wid →
      List.Perm
        ((updateAnomalyWindow l a0.id (some wid)).filter
          (fun a => a.maintenanceWindowId == some wid))
        ({ a0 with maintenanceWindowId := some wid } ::
          l.filter (fun a => a.maintenanceWindowId == some wid)) := by
  intro l
  induction l with
  | nil => intro h; exact absurd h (List.not_mem_nil a0)
  | cons b bs ih =>
    intro hmem hnd hwin
    rw [List.map_cons, List.nodup_cons] at hnd
    obtain ⟨hbid, hnd'⟩ := hnd
    rcases List.mem_cons.mp hmem with rfl | hmem'
    · have hfb : updateAnomalyWindow (a0 :: bs) a0.id (some wid) =
          { a0 with maintenanceWindowId := some wid } :: bs := by
        rw [updateAnomalyWindow, List.map_cons, if_pos rfl]
        congr 1
        have hpt : ∀ x ∈ bs,
            (if x.id = a0.id then { x with maintenanceWindowId := some wid } else x)
              = (fun y => y) x := by
          intro x hx
          rw [if_neg]
          intro hxe
          exact hbid (hxe ▸ List.mem_map_of_mem (·.id) hx)
        rw [List.map_congr_left hpt, List.map_id']
      rw [hfb, List.filter_cons_of_pos (by simp),
        List.filter_cons_of_neg (by simpa using hwin)]
    · have hbne : ¬ b.id = a0.id := by
        intro hbe
        exact hbid (hbe ▸ List.mem_map_of_mem (·.id) hmem')
      have hupd : updateAnomalyWindow (b :: bs) a0.id (some wid) =
          b :: updateAnomalyWindow bs a0.id (some wid) := by
        simp only [updateAnomalyWindow, List.map_cons, if_neg hbne]
      rw [hupd]
      by_cases hb : b.maintenanceWindowId = some wid
      · rw [List.filter_cons_of_pos (by simpa using hb),
          List.filter_cons_of_pos (by simpa using hb)]
        exact ((ih hmem' hnd' hwin).cons b).trans (List.Perm.swap _ _ _)
      · rw [List.filter_cons_of_neg (by simpa using hb),
          List.filter_cons_of_neg (by simpa using hb)]
        exact ih hmem' hnd' hwin

/-- The triangular efficiency score does not decrease when a utilization
strictly between 0 and 50 rises while staying at most 100. -/
lemma eff_score_monotone (u u' : ℚ) (hu50 : u < 50) (huu : u ≤ u')
    (hu100 : u' ≤ 100) :
    max 0 (100 - |85 - u|) ≤ max 0 (100 - |85 - u'|) := by
  rcases le_or_lt u' 85 with h | h
  · rw [abs_of_nonneg (by linarith), abs_of_nonneg (by linarith)]
    exact max_le_max le_rfl (by linarith)
  · rw [abs_of_nonneg (by linarith : (0 : ℚ) ≤ 85 - u),
      abs_of_neg (by linarith : 85 - u' < 0)]
    exact max_le_max le_rfl (by linarith)

/-- C9 counterexample: on the fixture data the optimizer returns exactly
one reassignment (anomaly 2 from window 1 to window 2); applying it drops
window 1's `overallScore` from 47.5 to 37.5 and the aggregate score over
both windows from 65 to 63. -/
theorem optimizer_overallScore_decrease_counterexample :
    optimize T9 P9 W9 = [⟨2, 1, 2⟩] ∧
    (analyzeWindow (applyReassignments T9 (optimize T9 P9 W9)) P9 w9a).overallScore <
      (analyzeWindow T9 P9 w9a).overallScore ∧
    (W9.map (fun w =>
        (analyzeWindow (applyReassignments T9 (optimize T9 P9 W9)) P9 w).overallScore)).sum <
      (W9.map (fun w => (analyzeWindow T9 P9 w).overallScore)).sum := by
  refine ⟨by with_unfolding_all rfl, ?_, ?_⟩ <;> with_unfolding_all decide

/-- The reassignment grows the target window's workload by exactly the
moved anomaly's processing time. -/
lemma update_workload_eq (plans : List ActionPlan) (a0 : Anomaly) (wid : Nat)
    (l : List Anomaly) (hmem : a0 ∈ l) (hnd : (l.map (·.id)).Nodup)
    (hwin : a0.maintenanceWindowId ≠ some wid) :
    (((updateAnomalyWindow l a0.id (some wid)).filter
        (fun a => a.maintenanceWindowId == some wid)).map
      (fun a => planProcessingTime (findActionPlan plans a.id))).sum =
    ((l.filter (fun a => a.maintenanceWindowId == some wid)).map
        (fun a => planProcessingTime (findActionPlan plans a.id))).sum +
      planProcessingTime (findActionPlan plans a0.id) := by
  have hperm := (update_filter_perm a0 wid l hmem hnd hwin).map
    (fun a => planProcessingTime (findActionPlan plans a.id))
  rw [hperm.sum_eq, List.map_cons, List.sum_cons]
  exact add_comm _ _

/-- The reassignment cannot reduce the number of distinct criticality
levels in the target window. -/
lemma update_balance_le (a0 : Anomaly) (wid : Nat) (l : List Anomaly)
    (hmem : a0 ∈ l) (hnd : (l.map (·.id)).Nodup)
    (hwin : a0.maintenanceWindowId ≠ some wid) :
    ((l.filter (fun a => a.maintenanceWindowId == some wid)).map
      (·.criticalityLevel)).dedup.length ≤
    (((updateAnomalyWindow l a0.id (some wid)).filter
        (fun a => a.maintenanceWindowId == some wid)).map
      (·.criticalityLevel)).dedup.length := by
  have hperm := (update_filter_perm a0 wid l hmem hnd hwin).map (·.criticalityLevel)
  rw [← List.card_toFinset, ← List.card_toFinset,
    List.toFinset_eq_of_perm _ _ hperm, List.map_cons, List.toFinset_cons]
  exact Finset.card_le_card (Finset.subset_insert _ _)

/-- C9 (amended): every move the spec-modelled optimizer step returns goes
into an underutilized window with sufficient remaining capacity, and that
target window's `overallScore` (as computed by the source-embedded
analyzer) does not decrease when the reassignment is applied; the source
window's score — and therefore the aggregate — may decrease, as the
counterexample shows. -/
theorem optimizer_target_window_monotone
    (treated : List Anomaly) (plans : List ActionPlan)
    (windows : List MaintenanceWindow) (src : WindowAnalysis)
    (sa : ScoredAnomaly) (tgt : WindowAnalysis)
    (hpick : pickMove treated plans windows = some (src, sa, tgt))
    (hnodup : (treated.map (·.id)).Nodup) :
    optimizeStep treated plans windows =
      some ⟨sa.anomaly.id, src.window.id, tgt.window.id⟩ ∧
    (analyzeWindow treated plans tgt.window).overallScore ≤
      (analyzeWindow (applyReassignment treated
          ⟨sa.anomaly.id, src.window.id, tgt.window.id⟩)
        plans tgt.window).overallScore := by
  refine ⟨by simp only [optimizeStep, hpick, Option.map_some'], ?_⟩
  rw [pickMove] at hpick
  rcases Option.bind_eq_some.mp hpick with ⟨src', hfind, h2⟩
  rcases Option.bind_eq_some.mp h2 with ⟨sa', hmin, h3⟩
  rcases Option.map_eq_some'.mp h3 with ⟨tgt', hmax, heq⟩
  simp only [Prod.mk.injEq] at heq
  obtain ⟨rfl, rfl, rfl⟩ := heq
  have hsrc_mem := List.mem_of_find?_eq_some hfind
  rcases List.mem_map.mp hsrc_mem with ⟨wsrc, _, hsrc_eq⟩
  have hsrc_win : src'.window = wsrc := by
    rw [← hsrc_eq]
    rfl
  have hsa_mem := minByEfficiency_mem _ _ hmin
  rcases List.mem_map.mp hsa_mem with ⟨a0, ha0_src, hsa_eq⟩
  have hsa_an : sa'.anomaly = a0 := by
    rw [← hsa_eq]
    rfl
  have hsa_pt : sa'.processingTime =
      planProcessingTime (findActionPlan plans a0.id) := by
    rw [← hsa_eq]
    rfl
  have hassg : src'.assignedAnomalies =
      treated.filter (fun a => a.maintenanceWindowId == some wsrc.id) := by
    rw [← hsrc_eq]
    rfl
  rw [hassg] at ha0_src
  have ha0_treated : a0 ∈ treated := (List.mem_filter.mp ha0_src).1
  have ha0_win : a0.maintenanceWindowId = some wsrc.id :=
    beq_iff_eq.mp (List.mem_filter.mp ha0_src).2
  have htgt_mem := maxByOverall_mem _ _ hmax
  rcases List.mem_filter.mp htgt_mem with ⟨htgt_an, htgt_cond⟩
  simp only [Bool.and_eq_true, decide_eq_true_eq] at htgt_cond
  obtain ⟨⟨⟨htgt_pos, htgt_lt50⟩, htgt_cap⟩, htgt_ne⟩ := htgt_cond
  rcases List.mem_map.mp htgt_an with ⟨wt, _, htgt_eq⟩
  have htgt_win : tgt'.window = wt := by
    rw [← htgt_eq]
    rfl
  have ha0_notin : a0.maintenanceWindowId ≠ some wt.id := by
    rw [ha0_win]
    intro hcontra
    exact htgt_ne (by rw [htgt_win, hsrc_win, ← Option.some.inj hcontra])
  have hutil_def : tgt'.utilization =
      (if 0 < wt.durationDays then
        tgt'.totalWorkload / (wt.durationDays : ℚ) * 100 else 0) := by
    rw [← htgt_eq]
    rfl
  have hC : 0 < wt.durationDays := by
    by_contra hC
    rw [if_neg hC] at hutil_def
    rw [hutil_def] at htgt_pos
    exact lt_irrefl 0 htgt_pos
  have hCq : (0 : ℚ) < (wt.durationDays : ℚ) := by exact_mod_cast hC
  have happly : applyReassignment treated
      ⟨sa'.anomaly.id, src'.window.id, tgt'.window.id⟩
      = updateAnomalyWindow treated a0.id (some wt.id) := by
    rw [applyReassignment, hsa_an, htgt_win]
  rw [happly, htgt_win, htgt_eq]
  have hWt : tgt'.totalWorkload = ((treated.filter
      (fun a => a.maintenanceWindowId == some wt.id)).map
      (fun a => planProcessingTime (findActionPlan plans a.id))).sum := by
    rw [← htgt_eq]
    rfl
  have hW' : (analyzeWindow (updateAnomalyWindow treated a0.id (some wt.id))
        plans wt).totalWorkload =
      tgt'.totalWorkload + planProcessingTime (findActionPlan plans a0.id) := by
    rw [hWt]
    exact update_workload_eq plans a0 wt.id treated ha0_treated hnodup ha0_notin
  have hU' : (analyzeWindow (updateAnomalyWindow treated a0.id (some wt.id))
        plans wt).utilization =
      (tgt'.totalWorkload + planProcessingTime (findActionPlan plans a0.id))
        / (wt.durationDays : ℚ) * 100 := by
    have hdef : (analyzeWindow (updateAnomalyWindow treated a0.id (some wt.id))
          plans wt).utilization =
        (if 0 < wt.durationDays then
          (analyzeWindow (updateAnomalyWindow treated a0.id (some wt.id))
            plans wt).totalWorkload / (wt.durationDays : ℚ) * 100 else 0) := rfl
    rw [hdef, if_pos hC, hW']
  have hU : tgt'.utilization = tgt'.totalWorkload / (wt.durationDays : ℚ) * 100 := by
    rw [hutil_def, if_pos hC]
  have hp1 : 1 ≤ planProcessingTime (findActionPlan plans a0.id) :=
    one_le_planProcessingTime _
  have hcap : tgt'.totalWorkload + planProcessingTime (findActionPlan plans a0.id)
      ≤ (wt.durationDays : ℚ) := by
    rw [← hsa_pt, ← htgt_win]
    exact htgt_cap
  have huu : tgt'.utilization ≤
      (analyzeWindow (updateAnomalyWindow treated a0.id (some wt.id))
        plans wt).utilization := by
    rw [hU, hU']
    refine mul_le_mul_of_nonneg_right ?_ (by norm_num : (0 : ℚ) ≤ 100)
    exact (div_le_div_iff_of_pos_right hCq).mpr (by linarith)
  have hu100 : (analyzeWindow (updateAnomalyWindow treated a0.id (some wt.id))
      plans wt).utilization ≤ 100 := by
    rw [hU']
    have h1 : (tgt'.totalWorkload + planProcessingTime (findActionPlan plans a0.id))
        / (wt.durationDays : ℚ) ≤ 1 := (div_le_one hCq).mpr hcap
    calc (tgt'.totalWorkload + planProcessingTime (findActionPlan plans a0.id))
          / (wt.durationDays : ℚ) * 100
        ≤ 1 * 100 := mul_le_mul_of_nonneg_right h1 (by norm_num)
      _ = 100 := one_mul 100
  have hEt : tgt'.efficiencyScore = max 0 (100 - |85 - tgt'.utilization|) := by
    rw [← htgt_eq]
    rfl
  have heff : tgt'.efficiencyScore ≤
      (analyzeWindow (updateAnomalyWindow treated a0.id (some wt.id))
        plans wt).efficiencyScore := by
    have hE' : (analyzeWindow (updateAnomalyWindow treated a0.id (some wt.id))
          plans wt).efficiencyScore =
        max 0 (100 - |85 -
          (analyzeWindow (updateAnomalyWindow treated a0.id (some wt.id))
            plans wt).utilization|) := rfl
    rw [hEt, hE']
    exact eff_score_monotone _ _ htgt_lt50 huu hu100
  have hBt : tgt'.balanceScore = (((treated.filter
      (fun a => a.maintenanceWindowId == some wt.id)).map
      (·.criticalityLevel)).dedup.length : ℚ) * 10 := by
    rw [← htgt_eq]
    rfl
  have hbal : tgt'.balanceScore ≤
      (analyzeWindow (updateAnomalyWindow treated a0.id (some wt.id))
        plans wt).balanceScore := by
    have hB' : (analyzeWindow (updateAnomalyWindow treated a0.id (some wt.id))
          plans wt).balanceScore =
        ((((updateAnomalyWindow treated a0.id (some wt.id)).filter
            (fun a => a.maintenanceWindowId == some wt.id)).map
          (·.criticalityLevel)).dedup.length : ℚ) * 10 := rfl
    rw [hBt, hB']
    have hle := update_balance_le a0 wt.id treated ha0_treated hnodup ha0_notin
    exact mul_le_mul_of_nonneg_right (by exact_mod_cast hle) (by norm_num)
  have hOt : tgt'.overallScore = (tgt'.balanceScore + tgt'.efficiencyScore) / 2 := by
    rw [← htgt_eq]
    rfl
  have hO' : (analyzeWindow (updateAnomalyWindow treated a0.id (some wt.id))
        plans wt).overallScore =
      ((analyzeWindow (updateAnomalyWindow treated a0.id (some wt.id))
          plans wt).balanceScore +
        (analyzeWindow (updateAnomalyWindow treated a0.id (some wt.id))
          plans wt).efficiencyScore) / 2 := rfl
  rw [hOt, hO']
  linarith

/-- C9 witness: on the fixture data the step picks the move of anomaly 2
into window 2, and window 2's `overallScore` does not decrease. -/
theorem optimizer_target_window_monotone_witness :
    (analyzeWindow T9 P9 w9b).overallScore ≤
      (analyzeWindow (applyReassignment T9 ⟨2, 1, 2⟩) P9 w9b).overallScore :=
  (optimizer_target_window_monotone T9 P9 W9 (analyzeWindow T9 P9 w9a)
      (scoreAnomaly P9 a9b) (analyzeWindow T9 P9 w9b)
      (by with_unfolding_all rfl) (by decide)).2


end Tams
